import Mathlib

/-!
Verification of the concurrent LLM batch dispatcher (`llmblast`, src/lib.rs).

The Rust source is shallowly embedded:
* `serde_json::Value` becomes the inductive `Json`; a response body is
  represented by its parse result (`Option Json`, `none` = not valid JSON),
  which is all `serde_json::from_str` exposes to this program.
* The HTTP transport (`reqwest`) is an external collaborator; it is modelled
  as an oracle function from the request to a `TransportResponse`.
* `anyhow` errors are modelled by the inductive `CallError`, one constructor
  per error-producing site of the source (plus `UnsupportedProvider`, which
  appears in the spec's error taxonomy but is never constructed by the code).
* A Rust panic (`unimplemented!()`) diverges the surrounding tokio task; it is
  modelled as the distinguished outcome `CallOutcome.panicked`, which
  `tokio::task::spawn`/`join_all` surface as a join error at the batch level.
* Concurrency: each prompt's task computes its outcome independently of the
  others; the wall-clock completion order is modelled as an arbitrary list of
  task indices (`order`), and `futures::future::join_all` is modelled by
  `joinAll`, which places each completion into the slot of its launch index.
  "Every task completes" is the hypothesis that `order` covers every index.
-/

/-- Embedding of `serde_json::Value`. Numbers are modelled as rationals
(the only number this program ever serializes is the literal `0.0`). -/
inductive Json where
  | null : Json
  | bool (b : Bool) : Json
  | num (q : ℚ) : Json
  | str (s : String) : Json
  | arr (elems : List Json) : Json
  | obj (fields : List (String × Json)) : Json

/-- `Value::get(key)` on an object (`serde_json` maps have unique keys;
association-list lookup of the first match models this). `None` on
non-objects and missing keys. -/
def Json.getKey : Json → String → Option Json
  | .obj fields, key => fields.lookup key
  | _, _ => none

/-- `Value::get(i)` with a `usize` index: indexes arrays, `None` otherwise. -/
def Json.getIdx : Json → Nat → Option Json
  | .arr elems, i => elems.get? i
  | _, _ => none

/-- `Value::as_str`. -/
def Json.asStr : Json → Option String
  | .str s => some s
  | _ => none

/-- Embedding of the `Provider` pyclass enum (src/lib.rs). -/
inductive Provider where
  | OpenAI (model_name : String) (api_key : String) : Provider
  | Anthropic (model_name : String) (api_key : String) : Provider
deriving DecidableEq

/-- `const API_OPENAI` (src/lib.rs). -/
def API_OPENAI : String := "https://api.openai.com/v1/chat/completions"

/-- The `anyhow` errors of `_call_llm`, one constructor per error site:
transport failure (`send`/`text`), JSON decode failure (`from_str`), and the
two `ok_or_else` extraction sites. `UnsupportedProvider` comes from the
spec's error taxonomy (section 7); the source never constructs it — the
unimplemented Anthropic branch panics instead. -/
inductive CallError where
  | TransportError (msg : String) : CallError
  | DecodeError : CallError
  | ExtractionFailed (msg : String) : CallError
  | UnsupportedProvider : CallError
deriving DecidableEq

/-- Outcome of one `_call_llm` task: a returned `Ok`, a returned `Err`, or a
panic (`unimplemented!()`), which tokio turns into a `JoinError`. -/
inductive CallOutcome where
  | ok (response : String) : CallOutcome
  | err (e : CallError) : CallOutcome
  | panicked (msg : String) : CallOutcome
deriving DecidableEq

/-- What the transport oracle returns for one request: a network-level
failure, or a body given by its JSON parse result (`none` = invalid JSON). -/
inductive TransportResponse where
  | failure (msg : String) : TransportResponse
  | body (parsed : Option Json) : TransportResponse

/-- One outbound HTTP request as the source builds it: URL, the two headers,
and the JSON body. -/
structure Request where
  url : String
  contentType : String
  authorization : String
  body : Json

/-- The external HTTP transport, as an oracle from request to response. -/
def Transport := Request → TransportResponse

/-- The request-building `match` of `_call_llm` (src/lib.rs lines 29-48):
for `OpenAI` it yields the URL, the JSON body (named `headers` in the
source) and the api key; the `Anthropic` arm hits `unimplemented!()`,
modelled as `none` (panic before any request exists). -/
def buildRequest (prompt : String) (provider : Provider) :
    Option (String × Json × String) :=
  match provider with
  | .OpenAI model_name api_key =>
      some (API_OPENAI,
        Json.obj [("model", Json.str model_name),
                  ("temperature", Json.num 0),
                  ("messages", Json.arr [Json.obj [("role", Json.str "user"),
                                                   ("content", Json.str prompt)]])],
        api_key)
  | .Anthropic _ _ => none

/-- The extraction `match` of `_call_llm` (src/lib.rs lines 64-89):
`choices[0].message.content` for OpenAI, `content[0].text` for Anthropic,
`as_str` at the end of both chains. -/
def extractContent (provider : Provider) (json_response : Json) : Option String :=
  match provider with
  | .OpenAI _ _ =>
      ((((json_response.getKey "choices").bind (fun choices => choices.getIdx 0)).bind
        (fun choice => choice.getKey "message")).bind
        (fun message => message.getKey "content")).bind
        (fun content => content.asStr)
  | .Anthropic _ _ =>
      (((json_response.getKey "content").bind (fun content => content.getIdx 0)).bind
        (fun block => block.getKey "text")).bind
        (fun text => text.asStr)

/-- The message of the `ok_or_else` at the extraction site of each branch. -/
def extractErrMsg (provider : Provider) : String :=
  match provider with
  | .OpenAI _ _ => "Failed to extract content from OpenAI response"
  | .Anthropic _ _ => "Failed to extract content from Anthropic response"

/-- `_call_llm` (src/lib.rs), instrumented with the list of requests actually
handed to the transport, so that "zero network calls" claims are statable.
Build the request (Anthropic panics with the `unimplemented!()` message
"not implemented"), POST it with the `Content-Type` and bearer
`authorization` headers, parse the body, extract the content. -/
def callLLMTraced (transport : Transport) (prompt : String) (provider : Provider) :
    CallOutcome × List Request :=
  match buildRequest prompt provider with
  | none => (.panicked "not implemented", [])
  | some (api_url, headers, api_key) =>
      let req : Request :=
        ⟨api_url, "application/json", "Bearer " ++ api_key, headers⟩
      (match transport req with
       | .failure msg => .err (.TransportError msg)
       | .body none => .err .DecodeError
       | .body (some json_response) =>
           match extractContent provider json_response with
           | some content => .ok content
           | none => .err (.ExtractionFailed (extractErrMsg provider)),
       [req])

/-- `_call_llm` proper: the outcome component of the traced call. -/
def callLLM (transport : Transport) (prompt : String) (provider : Provider) :
    CallOutcome :=
  (callLLMTraced transport prompt provider).1

/-- Errors of `_call_llm_batch`: a propagated call error (`return Err(e)`)
or a task join error (`anyhow::bail!("Task join error: ...")`, produced when
a spawned task panicked). -/
inductive BatchError where
  | call (e : CallError) : BatchError
  | join (msg : String) : BatchError
deriving DecidableEq

/-- How one completed task is seen by the fold of `_call_llm_batch`:
`Ok(Ok(r))`, `Ok(Err(e))` or `Err(join_error)`. -/
def CallOutcome.isOk : CallOutcome → Bool
  | .ok _ => true
  | _ => false

/-- Whether the task returned an error value (as opposed to succeeding or
panicking). -/
def CallOutcome.isErr : CallOutcome → Bool
  | .err _ => true
  | _ => false

/-- The batch-level error a non-`ok` outcome turns into (`none` for `ok`). -/
def CallOutcome.batchError : CallOutcome → Option BatchError
  | .ok _ => none
  | .err e => some (.call e)
  | .panicked msg => some (.join ("Task join error: " ++ msg))

/-- Model of `futures::future::join_all` (src/lib.rs line 107): the tasks'
outcomes fill a results vector slot-by-slot as they complete; `order` is the
wall-clock completion order (a list of task indices), and each completion of
task `i` stores that task's outcome at index `i`. A slot still `none` would
be a task that never completed; `join_all` returns only once every slot is
filled. -/
def joinAll (outs : List CallOutcome) (order : List Nat) : List (Option CallOutcome) :=
  order.foldl (fun acc i => acc.set i (outs.get? i)) (List.replicate outs.length none)

/-- "Every spawned task eventually completes": the completion order contains
every task index. -/
def Covers (order : List Nat) (n : Nat) : Prop :=
  ∀ i, i < n → i ∈ order

instance : ∀ order n, Decidable (Covers order n) := fun order n =>
  Nat.decidableBallLT n (fun i _ => i ∈ order)

/-- The collection loop of `_call_llm_batch` (src/lib.rs lines 109-116):
push each `Ok(Ok(response))`, return the first `Ok(Err(e))` as the batch
error, turn the first `Err(join_error)` into a "Task join error" failure.
The `none` arm (a never-completed task) cannot be reached once `join_all`
has returned; it is mapped to a join error for totality. -/
def foldResults : List (Option CallOutcome) → Except BatchError (List String)
  | [] => .ok []
  | none :: _ => .error (.join "pending task")
  | some (.ok response) :: rest =>
      match foldResults rest with
      | .ok responses => .ok (response :: responses)
      | .error e => .error e
  | some (.err e) :: _ => .error (.call e)
  | some (.panicked msg) :: _ => .error (.join ("Task join error: " ++ msg))

/-- `_call_llm_batch` (src/lib.rs lines 92-119), instrumented with the
requests sent: one task per prompt runs `_call_llm` on a clone of the shared
provider, `join_all` collects all outcomes positionally (under the
completion order `order`), and the loop folds them in launch order. The
second component collects every request any task handed to the transport. -/
def callLLMBatchTraced (transport : Transport) (prompts : List String)
    (provider : Provider) (order : List Nat) :
    Except BatchError (List String) × List Request :=
  let traced := prompts.map (fun prompt => callLLMTraced transport prompt provider)
  (foldResults (joinAll (traced.map Prod.fst) order), (traced.map Prod.snd).flatten)

/-- `_call_llm_batch` proper: the result component of the traced batch. -/
def callLLMBatch (transport : Transport) (prompts : List String)
    (provider : Provider) (order : List Nat) : Except BatchError (List String) :=
  (callLLMBatchTraced transport prompts provider order).1

/-- The `reqwest::Client` built by `get_http_client` (src/lib.rs lines 19-26):
the configuration recorded by the builder (`pool_idle_timeout` of 30s) plus
an identity for the allocated instance, so "no duplicate client" is statable. -/
structure Client where
  pool_idle_timeout_secs : Nat
  instanceId : Nat
deriving DecidableEq

/-- The builder closure passed to `get_or_init`: constructs a fresh client. -/
def mkClient (fresh : Nat) : Client :=
  ⟨30, fresh⟩

/-- `get_http_client` (src/lib.rs lines 19-26): one atomic step of
`OnceLock::get_or_init` on the static `HTTP_CLIENT`. The `OnceLock` contract
(std): if the cell is set, its value is returned; otherwise the initializer
runs and its value is stored. `st` is the cell before the call, `fresh`
identifies the allocation the initializer would make, and the result is the
observed client plus the cell after the call. -/
def get_http_client (st : Option Client) (fresh : Nat) : Client × Option Client :=
  match st with
  | some client => (client, some client)
  | none => (mkClient fresh, some (mkClient fresh))

/-- The clients observed by a sequence of `get_http_client` calls.
`OnceLock::get_or_init` blocks concurrent initializers, so racing callers
serialize into some sequence of atomic steps; `freshes` gives each step's
would-be allocation. -/
def runClients : Option Client → List Nat → List Client
  | _, [] => []
  | st, fresh :: rest =>
      let step := get_http_client st fresh
      step.1 :: runClients step.2 rest

/-- How many of the calls actually construct a client (run the initializer). -/
def clientCreations : Option Client → List Nat → Nat
  | _, [] => 0
  | st, fresh :: rest =>
      let step := get_http_client st fresh
      (match st with
       | none => 1
       | some _ => 0) + clientCreations step.2 rest

/-- Serialization of one string the way `serde_json` writes it: quoted, with
quote and backslash escaped. -/
def escapeChar (c : Char) : String :=
  if c = '\"' then "\\\"" else if c = '\\' then "\\\\" else String.singleton c

/-- Serialize a JSON string literal. -/
def serializeString (s : String) : String :=
  "\"" ++ String.join (s.toList.map escapeChar) ++ "\""

mutual

/-- Compact `serde_json` serialization of a value — the bytes `reqwest`'s
`.json(&headers)` puts on the wire. Integral floats print with a trailing
`.0` as `serde_json` prints `f64`s. -/
def Json.serialize : Json → String
  | .null => "null"
  | .bool true => "true"
  | .bool false => "false"
  | .num q => if q.den = 1 then toString q.num ++ ".0"
              else toString q.num ++ "/" ++ toString q.den
  | .str s => serializeString s
  | .arr elems => "[" ++ serializeElems elems ++ "]"
  | .obj fields => "\x7b" ++ serializeFields fields ++ "\x7d"

/-- Comma-separated serialization of array elements. -/
def serializeElems : List Json → String
  | [] => ""
  | [j] => Json.serialize j
  | j :: rest => Json.serialize j ++ "," ++ serializeElems rest

/-- Comma-separated serialization of object fields. -/
def serializeFields : List (String × Json) → String
  | [] => ""
  | [(key, value)] => serializeString key ++ ":" ++ Json.serialize value
  | (key, value) :: rest =>
      serializeString key ++ ":" ++ Json.serialize value ++ "," ++ serializeFields rest

end

/-- The OpenAI request body as section 6 of the spec words it: a JSON object
with fields `model`, `temperature` 0.0 and a single-element `messages` array
holding the `user` message with the prompt verbatim. Stated from the spec's
words, to be compared with `buildRequest`. -/
def specOpenAIRequestBody (model_name prompt : String) : Json :=
  Json.obj [("model", Json.str model_name),
            ("temperature", Json.num 0),
            ("messages", Json.arr [Json.obj [("role", Json.str "user"),
                                             ("content", Json.str prompt)]])]

/-- "Any segment of the path `choices[0].message.content` is absent, or the
final value is not a string" — the spec's characterization (section 4.2) of
a broken OpenAI response, one disjunct per failure point. -/
def openAIPathBroken (j : Json) : Prop :=
  j.getKey "choices" = none
  ∨ (∃ choices, j.getKey "choices" = some choices ∧ choices.getIdx 0 = none)
  ∨ (∃ choices choice, j.getKey "choices" = some choices ∧
       choices.getIdx 0 = some choice ∧ choice.getKey "message" = none)
  ∨ (∃ choices choice message, j.getKey "choices" = some choices ∧
       choices.getIdx 0 = some choice ∧ choice.getKey "message" = some message ∧
       message.getKey "content" = none)
  ∨ (∃ choices choice message content, j.getKey "choices" = some choices ∧
       choices.getIdx 0 = some choice ∧ choice.getKey "message" = some message ∧
       message.getKey "content" = some content ∧ content.asStr = none)

/-- The literal OpenAI-shaped response body of the spec's extraction test
(section 8), as parsed JSON. -/
def helloBody : Json :=
  Json.obj [("choices", Json.arr [Json.obj [("message",
    Json.obj [("content", Json.str "hello")])]])]

/-- A transport stub answering every request with the same parsed body. -/
def constTransport (j : Json) : Transport :=
  fun _ => .body (some j)

/-- The outcome vector of a batch: one `_call_llm` outcome per prompt, in
launch (input) order. -/
def batchOutcomes (transport : Transport) (prompts : List String)
    (provider : Provider) : List CallOutcome :=
  prompts.map (fun prompt => callLLM transport prompt provider)

theorem list_get?_map (l : List α) (f : α → β) (i : Nat) :
    (l.map f).get? i = (l.get? i).map f := by
  simp [List.get?_eq_getElem?]

theorem callLLMBatch_eq (transport : Transport) (prompts : List String)
    (provider : Provider) (order : List Nat) :
    callLLMBatch transport prompts provider order =
      foldResults (joinAll (batchOutcomes transport prompts provider) order) := by
  unfold callLLMBatch callLLMBatchTraced batchOutcomes callLLM
  show foldResults (joinAll
      ((prompts.map (fun prompt => callLLMTraced transport prompt provider)).map Prod.fst)
      order) = _
  rw [List.map_map]
  rfl

theorem batchOutcomes_length (transport : Transport) (prompts : List String)
    (provider : Provider) :
    (batchOutcomes transport prompts provider).length = prompts.length :=
  List.length_map prompts _

theorem joinAll_fill_length (outs : List CallOutcome) (order : List Nat)
    (acc : List (Option CallOutcome)) :
    (order.foldl (fun acc i => acc.set i (outs.get? i)) acc).length = acc.length := by
  induction order generalizing acc with
  | nil => rfl
  | cons i rest ih => rw [List.foldl_cons, ih, List.length_set]

theorem joinAll_fill_not_mem (outs : List CallOutcome) (order : List Nat)
    (acc : List (Option CallOutcome)) (j : Nat) (hj : j ∉ order) :
    (order.foldl (fun acc i => acc.set i (outs.get? i)) acc).get? j = acc.get? j := by
  induction order generalizing acc with
  | nil => rfl
  | cons i rest ih =>
      have hne : i ≠ j := by
        intro h
        subst h
        exact hj (List.mem_cons_self i rest)
      have hrest : j ∉ rest := fun h => hj (List.mem_cons_of_mem i h)
      rw [List.foldl_cons, ih _ hrest, List.get?_set_ne _ _ hne]

theorem joinAll_fill_mem (outs : List CallOutcome) (order : List Nat)
    (acc : List (Option CallOutcome)) (j : Nat) (hj : j ∈ order)
    (hlt : j < acc.length) :
    (order.foldl (fun acc i => acc.set i (outs.get? i)) acc).get? j =
      some (outs.get? j) := by
  induction order generalizing acc with
  | nil => cases hj
  | cons i rest ih =>
      rw [List.foldl_cons]
      by_cases hr : j ∈ rest
      · exact ih _ hr (by rwa [List.length_set])
      · have hij : i = j := by
          rcases List.mem_cons.mp hj with h | h
          · exact h.symm
          · exact absurd h hr
        subst hij
        rw [joinAll_fill_not_mem _ _ _ _ hr, List.get?_set_eq_of_lt _ hlt]

/-- When every launched task completes, `join_all` hands the fold the full
outcome vector in launch order, whatever the completion order was. -/
theorem joinAll_covers (outs : List CallOutcome) (order : List Nat)
    (hcov : Covers order outs.length) :
    joinAll outs order = outs.map some := by
  apply List.ext_get?
  intro j
  by_cases hlt : j < outs.length
  · rw [joinAll, joinAll_fill_mem outs order _ j (hcov j hlt)
        (by rwa [List.length_replicate]), list_get?_map]
    cases hg : outs.get? j with
    | none => exact absurd (List.get?_eq_none.mp hg) (by omega)
    | some o => rfl
  · push_neg at hlt
    rw [List.get?_len_le (by rw [joinAll, joinAll_fill_length, List.length_replicate]; omega),
        List.get?_len_le (by rw [List.length_map]; omega)]

/-- If the collection loop of `_call_llm_batch` returns `Ok`, every task
outcome was `Ok` and was pushed in launch order. -/
theorem foldResults_all_ok (outs : List CallOutcome) (rs : List String)
    (h : foldResults (outs.map some) = .ok rs) : outs = rs.map CallOutcome.ok := by
  induction outs generalizing rs with
  | nil =>
      simp only [List.map_nil, foldResults] at h
      injection h with h
      rw [← h]
      rfl
  | cons o rest ih =>
      cases o with
      | ok s =>
          rw [List.map_cons] at h
          cases hr : foldResults (rest.map some) with
          | ok responses =>
              simp only [foldResults, hr] at h
              injection h with h
              rw [← h, List.map_cons, ih responses hr]
          | error e =>
              simp only [foldResults, hr] at h
              exact Except.noConfusion h
      | err e =>
          simp only [List.map_cons, foldResults] at h
          exact Except.noConfusion h
      | panicked msg =>
          simp only [List.map_cons, foldResults] at h
          exact Except.noConfusion h

/-- If some task outcome is not `Ok`, the collection loop returns an error
(never a partial list). -/
theorem foldResults_err_of_fail (outs : List CallOutcome)
    (h : ∃ o ∈ outs, o.isOk = false) :
    ∃ e, foldResults (outs.map some) = .error e := by
  induction outs with
  | nil =>
      rcases h with ⟨o, ho, _⟩
      cases ho
  | cons o rest ih =>
      cases o with
      | ok s =>
          rcases h with ⟨o', ho', hfail⟩
          rcases List.mem_cons.mp ho' with h | hm
          · rw [h] at hfail
            cases hfail
          · rcases ih ⟨o', hm, hfail⟩ with ⟨e, he⟩
            exact ⟨e, by simp only [List.map_cons, foldResults, he]⟩
      | err e => exact ⟨.call e, by simp only [List.map_cons, foldResults]⟩
      | panicked msg =>
          exact ⟨.join ("Task join error: " ++ msg), by simp only [List.map_cons, foldResults]⟩

/-- The collection loop returns the error of the first (lowest launch index)
non-`Ok` outcome. -/
theorem foldResults_first_err (outs : List CallOutcome) (i : Nat)
    (oi : CallOutcome) (e : BatchError)
    (hok : ∀ j o, j < i → outs.get? j = some o → o.isOk = true)
    (hi : outs.get? i = some oi) (he : oi.batchError = some e) :
    foldResults (outs.map some) = .error e := by
  induction outs generalizing i with
  | nil => cases hi
  | cons o rest ih =>
      cases i with
      | zero =>
          have hoi : o = oi := by
            injection hi
          subst hoi
          cases o with
          | ok s => cases he
          | err e' =>
              simp only [CallOutcome.batchError] at he
              injection he with he
              rw [← he]
              simp only [List.map_cons, foldResults]
          | panicked msg =>
              simp only [CallOutcome.batchError] at he
              injection he with he
              rw [← he]
              simp only [List.map_cons, foldResults]
      | succ k =>
          have h0 : o.isOk = true := hok 0 o (Nat.succ_pos k) rfl
          cases o with
          | ok s =>
              have hrest := ih k
                (fun j o' hj hg => hok (j + 1) o' (Nat.succ_lt_succ hj) hg) hi
              simp only [List.map_cons, foldResults, hrest]
          | err e' => cases h0
          | panicked msg => cases h0

/-- A broken `choices[0].message.content` path makes the extraction chain
return `None`. -/
theorem extract_none_of_broken (j : Json) (model_name api_key : String)
    (h : openAIPathBroken j) :
    extractContent (.OpenAI model_name api_key) j = none := by
  unfold extractContent
  rcases h with h | ⟨c, hc, h⟩ | ⟨c, c0, hc, hc0, h⟩ |
    ⟨c, c0, m, hc, hc0, hm, h⟩ | ⟨c, c0, m, v, hc, hc0, hm, hv, h⟩
  · simp [h]
  · simp [hc, h]
  · simp [hc, hc0, h]
  · simp [hc, hc0, hm, h]
  · simp [hc, hc0, hm, hv, h]

/-- With no prompts there are no tasks, and `join_all` yields nothing. -/
theorem joinAll_nil (order : List Nat) : joinAll [] order = [] := by
  unfold joinAll
  induction order with
  | nil => rfl
  | cons i rest ih => simpa using ih

/-- Once the `OnceLock` holds a client, no later call constructs another. -/
theorem clientCreations_some (c : Client) (freshes : List Nat) :
    clientCreations (some c) freshes = 0 := by
  induction freshes with
  | nil => rfl
  | cons f rest ih => simpa [clientCreations, get_http_client] using ih

/-- Once the `OnceLock` holds a client, every later call observes it. -/
theorem runClients_some (c : Client) (freshes : List Nat) :
    runClients (some c) freshes = List.replicate freshes.length c := by
  induction freshes with
  | nil => rfl
  | cons f rest ih => simpa [runClients, get_http_client, List.replicate] using ih

/-- For an OpenAI provider, exactly one request is handed to the transport,
whatever the transport answers: the POST to `API_OPENAI` with the JSON
content type, the bearer key, and the built body. -/
theorem callLLMTraced_openai_requests (transport : Transport)
    (prompt model_name api_key : String) :
    (callLLMTraced transport prompt (.OpenAI model_name api_key)).2 =
      [⟨API_OPENAI, "application/json", "Bearer " ++ api_key,
        specOpenAIRequestBody model_name prompt⟩] := rfl

/-- C1: if the batch dispatch succeeds, the returned list has exactly the
length of the prompt list and, for every index i, result[i] is the parsed
answer `_call_llm` produces for prompt[i] — for every completion order of
the concurrent calls. -/
theorem batch_success_aligned (transport : Transport) (prompts : List String)
    (provider : Provider) (order : List Nat) (rs : List String)
    (hcov : Covers order prompts.length)
    (hok : callLLMBatch transport prompts provider order = .ok rs) :
    rs.length = prompts.length ∧
    ∀ i p, prompts.get? i = some p →
      ∃ r, rs.get? i = some r ∧ callLLM transport p provider = .ok r := by
  have hcov' : Covers order (batchOutcomes transport prompts provider).length := by
    rwa [batchOutcomes_length]
  rw [callLLMBatch_eq, joinAll_covers _ _ hcov'] at hok
  have houts := foldResults_all_ok _ rs hok
  constructor
  · have hlen := congrArg List.length houts
    rw [batchOutcomes_length, List.length_map] at hlen
    omega
  · intro i p hp
    have hgi : (batchOutcomes transport prompts provider).get? i =
        (rs.map CallOutcome.ok).get? i := by rw [houts]
    rw [batchOutcomes, list_get?_map, hp, list_get?_map] at hgi
    cases hr : rs.get? i with
    | none => rw [hr] at hgi; cases hgi
    | some r =>
        rw [hr] at hgi
        injection hgi with hgi
        exact ⟨r, rfl, hgi⟩

/-- C1 witness: a two-prompt batch against a stub transport, completing in
reverse order, succeeds with the index-aligned answers and equal lengths. -/
theorem batch_success_aligned_witness :
    callLLMBatch (constTransport helloBody) ["a", "b"] (.OpenAI "m" "k") [1, 0] =
      .ok ["hello", "hello"] ∧
    (["hello", "hello"] : List String).length = (["a", "b"] : List String).length :=
  ⟨rfl,
   (batch_success_aligned (constTransport helloBody) ["a", "b"] (.OpenAI "m" "k")
     [1, 0] ["hello", "hello"] (by decide) rfl).1⟩

/-- C2: if any of the concurrent calls fails, the batch operation returns an
error — never a partial list of the successful results. -/
theorem batch_failfast_no_partial (transport : Transport) (prompts : List String)
    (provider : Provider) (order : List Nat)
    (hcov : Covers order prompts.length)
    (hfail : ∃ i p, prompts.get? i = some p ∧
      (callLLM transport p provider).isOk = false) :
    ∃ e, callLLMBatch transport prompts provider order = .error e := by
  have hcov' : Covers order (batchOutcomes transport prompts provider).length := by
    rwa [batchOutcomes_length]
  rw [callLLMBatch_eq, joinAll_covers _ _ hcov']
  apply foldResults_err_of_fail
  rcases hfail with ⟨i, p, hp, hf⟩
  exact ⟨callLLM transport p provider,
    List.mem_map_of_mem _ (List.get?_mem hp), hf⟩

/-- C2 witness: a batch with a failing member (stub transport returns a body
with no `choices`) returns an error. -/
theorem batch_failfast_no_partial_witness :
    ∃ e, callLLMBatch (constTransport (Json.obj [])) ["a", "b"] (.OpenAI "m" "k")
      [1, 0] = .error e :=
  batch_failfast_no_partial (constTransport (Json.obj [])) ["a", "b"]
    (.OpenAI "m" "k") [1, 0] (by decide) ⟨0, "a", rfl, rfl⟩

/-- C3: extraction from the literal body with `choices[0].message.content`
set to "hello" yields exactly "hello"; on any body with that path broken the
call fails with `ExtractionFailed`. -/
theorem openai_extraction_correct (prompt model_name api_key : String) (j : Json)
    (hbroken : openAIPathBroken j) :
    callLLM (constTransport helloBody) prompt (.OpenAI model_name api_key) =
      .ok "hello" ∧
    callLLM (constTransport j) prompt (.OpenAI model_name api_key) =
      .err (.ExtractionFailed "Failed to extract content from OpenAI response") := by
  constructor
  · rfl
  · show (callLLMTraced (constTransport j) prompt (.OpenAI model_name api_key)).1 = _
    unfold callLLMTraced buildRequest
    simp [constTransport, extract_none_of_broken j model_name api_key hbroken,
      extractErrMsg]

/-- C3 witness: the hello body extracts to "hello"; the empty object (missing
`choices`) yields `ExtractionFailed`. -/
theorem openai_extraction_correct_witness :
    callLLM (constTransport helloBody) "x" (.OpenAI "m" "k") = .ok "hello" ∧
    callLLM (constTransport (Json.obj [])) "x" (.OpenAI "m" "k") =
      .err (.ExtractionFailed "Failed to extract content from OpenAI response") :=
  openai_extraction_correct "x" "m" "k" (Json.obj []) (Or.inl rfl)

/-- C4 counterexample: with the Anthropic provider the single-request caller
does not fail with an `UnsupportedProvider` error value — it is not an error
return at all: the `unimplemented!()` branch panics. -/
theorem anthropic_unsupported_counterexample :
    callLLM (constTransport helloBody) "hi" (.Anthropic "claude" "key") =
      .panicked "not implemented" ∧
    (callLLM (constTransport helloBody) "hi" (.Anthropic "claude" "key")).isErr =
      false :=
  ⟨rfl, rfl⟩

/-- C4 (amended): for every prompt and every transport, the Anthropic variant
fails immediately by panicking (`unimplemented!()`) before any network I/O is
attempted: zero requests reach the transport. -/
theorem anthropic_panics_before_transport (transport : Transport)
    (prompt model_name api_key : String) :
    callLLM transport prompt (.Anthropic model_name api_key) =
      .panicked "not implemented" ∧
    (callLLMTraced transport prompt (.Anthropic model_name api_key)).2 = [] :=
  ⟨rfl, rfl⟩

/-- C5: for every prompt (including "") and OpenAI descriptor, the built
request targets the fixed chat-completions endpoint and its body is exactly
the object with `model`, `temperature` 0.0 and the single verbatim `user`
message — and that is the one request handed to the transport. -/
theorem openai_request_shape (transport : Transport)
    (prompt model_name api_key : String) :
    buildRequest prompt (.OpenAI model_name api_key) =
      some (API_OPENAI, specOpenAIRequestBody model_name prompt, api_key) ∧
    (callLLMTraced transport prompt (.OpenAI model_name api_key)).2 =
      [⟨API_OPENAI, "application/json", "Bearer " ++ api_key,
        specOpenAIRequestBody model_name prompt⟩] :=
  ⟨rfl, callLLMTraced_openai_requests transport prompt model_name api_key⟩

/-- C6: when a call fails, the batch does not cancel in-flight siblings:
for any completion order covering all launched tasks, `join_all` hands the
fold the complete outcome vector (every launched task's result is present),
and only then does the fold inspect outcomes. -/
theorem batch_awaits_all_before_fold (transport : Transport)
    (prompts : List String) (provider : Provider) (order : List Nat)
    (hcov : Covers order prompts.length)
    (hfail : ∃ i p, prompts.get? i = some p ∧
      (callLLM transport p provider).isOk = false) :
    joinAll (batchOutcomes transport prompts provider) order =
      (batchOutcomes transport prompts provider).map some ∧
    callLLMBatch transport prompts provider order =
      foldResults ((batchOutcomes transport prompts provider).map some) := by
  have hcov' : Covers order (batchOutcomes transport prompts provider).length := by
    rwa [batchOutcomes_length]
  refine ⟨joinAll_covers _ _ hcov', ?_⟩
  rw [callLLMBatch_eq, joinAll_covers _ _ hcov']

/-- C6 witness: with one failing member of two, the join still delivers both
outcomes to the fold. -/
theorem batch_awaits_all_before_fold_witness :
    joinAll (batchOutcomes (constTransport (Json.obj [])) ["a", "b"]
      (.OpenAI "m" "k")) [0, 1] =
    (batchOutcomes (constTransport (Json.obj [])) ["a", "b"]
      (.OpenAI "m" "k")).map some :=
  (batch_awaits_all_before_fold (constTransport (Json.obj [])) ["a", "b"]
    (.OpenAI "m" "k") [0, 1] (by decide) ⟨0, "a", rfl, rfl⟩).1

/-- C7: the process-wide HTTP client is created at most once: over any
sequence of `get_http_client` calls starting from the empty `OnceLock`, at
most one call runs the initializer, and all callers observe the same client
instance. -/
theorem http_client_created_once (freshes : List Nat) (c₁ c₂ : Client)
    (h₁ : c₁ ∈ runClients none freshes) (h₂ : c₂ ∈ runClients none freshes) :
    clientCreations none freshes ≤ 1 ∧ c₁ = c₂ := by
  cases freshes with
  | nil => cases h₁
  | cons f rest =>
      have hrun : runClients none (f :: rest) =
          mkClient f :: List.replicate rest.length (mkClient f) := by
        simp [runClients, get_http_client, runClients_some]
      constructor
      · simp [clientCreations, get_http_client, clientCreations_some]
      · rw [hrun] at h₁ h₂
        have e₁ : c₁ = mkClient f := by
          rcases List.mem_cons.mp h₁ with h | h
          · exact h
          · exact List.eq_of_mem_replicate h
        have e₂ : c₂ = mkClient f := by
          rcases List.mem_cons.mp h₂ with h | h
          · exact h
          · exact List.eq_of_mem_replicate h
        rw [e₁, e₂]

/-- C7 witness: two racing first calls (distinct would-be allocations 3 and
4): one creation, and both observe the first client. -/
theorem http_client_created_once_witness :
    clientCreations none [3, 4] ≤ 1 ∧ mkClient 3 = mkClient 3 :=
  http_client_created_once [3, 4] (mkClient 3) (mkClient 3) (by decide) (by decide)

/-- C8: request construction is deterministic: the same prompt and provider
yield the same built request and byte-identical serialized bodies (the
temperature is the constant 0.0; nothing random enters the payload). -/
theorem request_build_deterministic (prompt₁ prompt₂ : String)
    (provider₁ provider₂ : Provider) (hp : prompt₁ = prompt₂)
    (hprov : provider₁ = provider₂) :
    buildRequest prompt₁ provider₁ = buildRequest prompt₂ provider₂ ∧
    (buildRequest prompt₁ provider₁).map (fun r => Json.serialize r.2.1) =
      (buildRequest prompt₂ provider₂).map (fun r => Json.serialize r.2.1) := by
  subst hp hprov
  exact ⟨rfl, rfl⟩

/-- C8 witness: two builds from the same inputs agree. -/
theorem request_build_deterministic_witness :
    buildRequest "a" (.OpenAI "m" "k") = buildRequest "a" (.OpenAI "m" "k") :=
  (request_build_deterministic "a" "a" (.OpenAI "m" "k") (.OpenAI "m" "k") rfl rfl).1

/-- C9: the empty batch always succeeds with the empty list, and no request
is ever handed to the transport. -/
theorem empty_batch_ok_no_calls (transport : Transport) (provider : Provider)
    (order : List Nat) :
    callLLMBatch transport [] provider order = .ok [] ∧
    (callLLMBatchTraced transport [] provider order).2 = [] := by
  refine ⟨?_, rfl⟩
  rw [callLLMBatch_eq]
  show foldResults (joinAll [] order) = .ok []
  rw [joinAll_nil]
  rfl

/-- C10: when calls fail, the batch returns the error of the failing prompt
with the smallest input index — results are folded in launch order after all
tasks complete, so completion order has no influence. -/
theorem batch_error_least_index (transport : Transport) (prompts : List String)
    (provider : Provider) (order : List Nat) (i : Nat) (p : String) (e : BatchError)
    (hcov : Covers order prompts.length)
    (hok : ∀ j q, j < i → prompts.get? j = some q →
      (callLLM transport q provider).isOk = true)
    (hp : prompts.get? i = some p)
    (he : (callLLM transport p provider).batchError = some e) :
    callLLMBatch transport prompts provider order = .error e := by
  have hcov' : Covers order (batchOutcomes transport prompts provider).length := by
    rwa [batchOutcomes_length]
  rw [callLLMBatch_eq, joinAll_covers _ _ hcov']
  apply foldResults_first_err _ i (callLLM transport p provider) e _ _ he
  · intro j o hj hg
    rw [batchOutcomes, list_get?_map] at hg
    cases hq : prompts.get? j with
    | none => rw [hq] at hg; cases hg
    | some q =>
        rw [hq] at hg
        injection hg with hg
        rw [← hg]
        exact hok j q hj hq
  · rw [batchOutcomes, list_get?_map, hp]
    rfl

/-- C10 witness: both prompts fail, the completion order is reversed, and the
returned error is the one of index 0. -/
theorem batch_error_least_index_witness :
    callLLMBatch (constTransport (Json.obj [])) ["a", "b"] (.OpenAI "m" "k") [1, 0] =
      .error (.call (.ExtractionFailed
        "Failed to extract content from OpenAI response")) :=
  batch_error_least_index (constTransport (Json.obj [])) ["a", "b"]
    (.OpenAI "m" "k") [1, 0] 0 "a"
    (.call (.ExtractionFailed "Failed to extract content from OpenAI response"))
    (by decide) (fun j q hj _ => absurd hj (Nat.not_lt_zero j)) rfl rfl
